import Mathlib

/-!
# OnDiskBlob: a byte buffer backed by one file

Shallow embedding of `src/blobstore/implementations/ondisk/OnDiskBlob.cpp`.

* The member functions of `OnDiskBlob` are Lean functions over an explicit
  world state `σ` (the file system and whatever else the primitives touch).
* A call that may throw returns `Except Exn α × σ`: the world is kept when an
  exception leaves the call, as in C++.  A call that can also end the process
  through `std::terminate` returns `Outcome α × σ`.
* The collaborators that the translation unit only calls (`boost::filesystem`
  queries, `Data::LoadFromFile`, `Data::StoreToFile`, the memory handed out by
  `Data(size)`) are the fields of `Primitives σ`.  Statements about
  `OnDiskBlob` alone quantify over every `Primitives σ`; statements about file
  contents use the instance `disk`, written after the specification.
-/

namespace blobstore
namespace ondisk

/-! ## Collaborators -/

/-- One byte of a buffer or of a file. -/
abbrev Byte := UInt8

/-- A `boost::filesystem::path`, compared by value. -/
abbrev Path := String

/-- Modelled from the spec: the exception types are declared in headers that are
not among the sources (`FileDoesntExistException.h`).  The only distinction the
code makes is whether a thrown object is a `FileDoesntExistException`, the
"file does not exist" signal of the read primitive, or anything else. -/
inductive Exn where
  | FileDoesntExistException (filepath : Path)
  | other (code : Nat)
  deriving DecidableEq

/-- Modelled from the spec: the raw byte-buffer type `Data`
(`blobstore/utils/Data.h` is not among the sources): an owned block of
`size()` bytes. -/
structure Data where
  bytes : List Byte
  deriving DecidableEq

/-- The member `Data::size()`. -/
def Data.size (d : Data) : Nat := d.bytes.length

/-- The member `Data::data()`, the block seen as its bytes. -/
def Data.data (d : Data) : List Byte := d.bytes

/-- Modelled from the spec: the constructor `Data(size)` allocates `size` bytes
and does not initialise them; `junk i` is whatever the allocator left at
offset `i`. -/
def Data.ofSize (junk : Nat → Byte) (size : Nat) : Data :=
  ⟨(List.range size).map junk⟩

/-- Modelled from the spec: `Data::FillWithZeroes()` sets each of the `size()`
bytes to zero ("fills every byte with zero"). -/
def Data.FillWithZeroes (d : Data) : Data :=
  ⟨List.replicate d.size 0⟩

deriving instance DecidableEq for Except

/-- The operations `OnDiskBlob.cpp` calls and does not define, over a world
state `σ`.

* `bf_exists`, `bf_is_regular_file`: `boost::filesystem::exists` and
  `is_regular_file`, queries that leave the world alone.
* `LoadFromFile`: `Data::LoadFromFile(path)`, the read primitive.
* `StoreToFile`: `Data::StoreToFile(path) const`, the write primitive; being a
  `const` member it cannot touch the buffer, so only the world comes back.
* `uninitialised`: the content of memory obtained by `Data(size)`. -/
structure Primitives (σ : Type) where
  bf_exists : Path → σ → Bool
  bf_is_regular_file : Path → σ → Bool
  LoadFromFile : Path → σ → Except Exn Data × σ
  StoreToFile : Data → Path → σ → Except Exn Unit × σ
  uninitialised : Nat → Byte

/-! ## OnDiskBlob -/

/-- The two data members of `OnDiskBlob`. -/
structure OnDiskBlob where
  _filepath : Path
  _data : Data
  deriving DecidableEq

/-- How a call of `CreateOnDisk` or of the destructor ends: it returns, an
exception leaves it, or the process is ended by `std::terminate`. -/
inductive Outcome (α : Type) where
  | returned (a : α)
  | thrown (e : Exn)
  | terminated
  deriving DecidableEq

variable {σ : Type}

/-- The constructor `OnDiskBlob(filepath, size)`: `_data(size)`. -/
def OnDiskBlob.ofSize (io : Primitives σ) (filepath : Path) (size : Nat) : OnDiskBlob :=
  ⟨filepath, Data.ofSize io.uninitialised size⟩

/-- The constructor `OnDiskBlob(filepath, Data &&data)`. -/
def OnDiskBlob.ofData (filepath : Path) (data : Data) : OnDiskBlob :=
  ⟨filepath, data⟩

/-- Both overloads of `data()`: the buffer the returned pointer refers to. -/
def OnDiskBlob.data (b : OnDiskBlob) : List Byte := b._data.data

/-- The member `size()`. -/
def OnDiskBlob.size (b : OnDiskBlob) : Nat := b._data.size

/-- The member `_fillDataWithZeroes()`. -/
def OnDiskBlob._fillDataWithZeroes (b : OnDiskBlob) : OnDiskBlob :=
  ⟨b._filepath, b._data.FillWithZeroes⟩

/-- The member `_storeToDisk() const`. -/
def OnDiskBlob._storeToDisk (io : Primitives σ) (b : OnDiskBlob) (w : σ) :
    Except Exn Unit × σ :=
  io.StoreToFile b._data b._filepath w

/-- The member `flush()`.  It is not `const`, so the object after the call is
part of the result. -/
def OnDiskBlob.flush (io : Primitives σ) (b : OnDiskBlob) (w : σ) :
    Except Exn Unit × OnDiskBlob × σ :=
  let r := b._storeToDisk io w
  (r.1, b, r.2)

/-- The destructor `~OnDiskBlob()`.  It is defined without an exception
specification, so it is implicitly `noexcept`: when `_storeToDisk()` throws,
the exception cannot leave the destructor and the process ends in
`std::terminate`.  No call of the destructor ends in `thrown`. -/
def OnDiskBlob.destructor (io : Primitives σ) (b : OnDiskBlob) (w : σ) :
    Outcome Unit × σ :=
  match b._storeToDisk io w with
  | (.ok _, w1) => (.returned (), w1)
  | (.error _, w1) => (.terminated, w1)

/-- The static member `LoadFromDisk(filepath)`.  `none` is `nullptr`.  The
handler of the `try` block takes a `FileDoesntExistException` and lets every
other exception pass. -/
def OnDiskBlob.LoadFromDisk (io : Primitives σ) (filepath : Path) (w : σ) :
    Except Exn (Option OnDiskBlob) × σ :=
  if !io.bf_is_regular_file filepath w then
    (.ok none, w)
  else
    match io.LoadFromFile filepath w with
    | (.ok data, w1) => (.ok (some (OnDiskBlob.ofData filepath data)), w1)
    | (.error (.FileDoesntExistException _), w1) => (.ok none, w1)
    | (.error e, w1) => (.error e, w1)

/-- The static member `CreateOnDisk(filepath, size)`.  `none` is `nullptr`.

`blob` is a local `unique_ptr<OnDiskBlob>` that owns the new object.  There is
no handler in the function, so when `blob->_storeToDisk()` throws, control
passes to a handler of the caller: on the way the automatic object `blob` is
destroyed ([except.ctor]), which deletes the `OnDiskBlob` and so runs
`~OnDiskBlob()`, a second `_storeToDisk()`.  If that one throws as well, the
destructor ends the process in `std::terminate`; otherwise the first
exception reaches the caller.  On the path that returns, `blob` is moved into
the result and no destructor of an `OnDiskBlob` runs. -/
def OnDiskBlob.CreateOnDisk (io : Primitives σ) (filepath : Path) (size : Nat) (w : σ) :
    Outcome (Option OnDiskBlob) × σ :=
  if io.bf_exists filepath w then
    (.returned none, w)
  else
    let blob := (OnDiskBlob.ofSize io filepath size)._fillDataWithZeroes
    match blob._storeToDisk io w with
    | (.ok _, w1) => (.returned (some blob), w1)
    | (.error e, w1) =>
      match blob.destructor io w1 with
      | (.returned _, w2) => (.thrown e, w2)
      | (_, w2) => (.terminated, w2)

/-! ## What the owner of a blob does with `data()` -/

/-- The statement `static_cast<uint8_t*>(blob.data())[i] = v` for an offset
`i < size()`. -/
def OnDiskBlob.writeByte (b : OnDiskBlob) (i : Nat) (v : Byte) : OnDiskBlob :=
  ⟨b._filepath, ⟨b._data.bytes.set i v⟩⟩

/-- The statement `std::memcpy(blob.data(), B, len)` for `len = B.length`, at
most `size()`: the first `len` bytes become `B`, the rest stays. -/
def OnDiskBlob.writeBytes (b : OnDiskBlob) (B : List Byte) : OnDiskBlob :=
  ⟨b._filepath, ⟨B ++ b._data.bytes.drop B.length⟩⟩

/-- One thing the owner can do with a live blob. -/
inductive Op where
  | flush
  | write (i : Nat) (v : Byte)
  deriving DecidableEq

/-- A write is in bounds for a buffer of `n` bytes; `flush` always is. -/
def Op.inBounds (n : Nat) : Op → Bool
  | .flush => true
  | .write i _ => decide (i < n)

/-- Runs the operations in order on one blob.  The first exception ends the
run; the blob and the world at that point are returned with it.  A write
outside the buffer is undefined behaviour in C++: the run has no result
(`none`). -/
def runOps (io : Primitives σ) :
    List Op → OnDiskBlob → σ → Option (Option Exn × OnDiskBlob × σ)
  | [], b, w => some (none, b, w)
  | .write i v :: ops, b, w =>
    if i < b.size then runOps io ops (b.writeByte i v) w else none
  | .flush :: ops, b, w =>
    match b.flush io w with
    | (.ok _, b1, w1) => runOps io ops b1 w1
    | (.error e, b1, w1) => some (some e, b1, w1)

/-- The statements `blob.flush(); blob.flush();` with nothing in between. -/
def flushTwice (io : Primitives σ) (b : OnDiskBlob) (w : σ) :
    Except Exn Unit × OnDiskBlob × σ :=
  match b.flush io w with
  | (.ok _, b1, w1) => b1.flush io w1
  | (.error e, b1, w1) => (.error e, b1, w1)

/-! ## A file system after the specification -/

/-- What a path can refer to. -/
inductive Node where
  | regular_file (content : List Byte)
  | directory
  | other
  deriving DecidableEq

/-- The state of the file system: what each path refers to, if anything. -/
abbrev Disk := Path → Option Node

/-- Modelled from the spec: the file-system contract the blob consumes, "a
path-existence predicate, a regular-file predicate, a full-file
read-to-buffer primitive, and a full-buffer-write-to-file primitive
(overwrite semantics, not append)".  `boost::filesystem` and `Data.cpp` are
not among the sources.

* The read primitive returns the whole content of a regular file, reports
  "file does not exist" for a path that refers to nothing, and on anything
  else does what `onNonFile` says ("may behave unpredictably when pointed at a
  non-file").
* The write primitive creates the file when the path refers to nothing and
  replaces the whole content of a regular file.  The specification names no
  condition under which a write fails: here paths are one flat name space, and
  a write fails, leaving the disk alone, exactly when the path refers to
  something that is not a regular file. -/
def disk (junk : Nat → Byte) (onNonFile : Path → Except Exn Data) : Primitives Disk where
  bf_exists p d := (d p).isSome
  bf_is_regular_file p d :=
    match d p with
    | some (.regular_file _) => true
    | _ => false
  LoadFromFile p d :=
    match d p with
    | some (.regular_file content) => (.ok ⟨content⟩, d)
    | none => (.error (.FileDoesntExistException p), d)
    | some _ => (onNonFile p, d)
  StoreToFile data p d :=
    match d p with
    | none => (.ok (), Function.update d p (some (.regular_file data.bytes)))
    | some (.regular_file _) => (.ok (), Function.update d p (some (.regular_file data.bytes)))
    | some _ => (.error (.other 0), d)
  uninitialised := junk

/-- The same primitives with another read primitive. -/
def Primitives.withLoadFromFile (io : Primitives σ)
    (rd : Path → σ → Except Exn Data × σ) : Primitives σ :=
  ⟨io.bf_exists, io.bf_is_regular_file, rd, io.StoreToFile, io.uninitialised⟩

/-- The same primitives with another write primitive. -/
def Primitives.withStoreToFile (io : Primitives σ)
    (st : Data → Path → σ → Except Exn Unit × σ) : Primitives σ :=
  ⟨io.bf_exists, io.bf_is_regular_file, io.LoadFromFile, st, io.uninitialised⟩

/-- Primitives that exercise the failure paths.  The world is the number of
calls of the write primitive so far.  No path exists, every path passes the
regular-file check, the read primitive answers `rd`, and the write primitive
answers `wr k` on its call number `k` (counted from zero). -/
def faulty (rd : Except Exn Data) (wr : Nat → Except Exn Unit) : Primitives Nat where
  bf_exists _ _ := false
  bf_is_regular_file _ _ := true
  LoadFromFile _ w := (rd, w)
  StoreToFile _ _ w := (wr w, w + 1)
  uninitialised _ := 170

/-- The disk on which no path refers to anything. -/
def emptyDisk : Disk := fun _ => none

/-! ## Facts about the embedding used below -/

/-- The blob `CreateOnDisk` writes out: the path and `size` zero bytes, whatever
the allocator had left in the buffer. -/
theorem zero_filled_blob (io : Primitives σ) (p : Path) (n : Nat) :
    (OnDiskBlob.ofSize io p n)._fillDataWithZeroes = ⟨p, ⟨List.replicate n 0⟩⟩ := by
  simp [OnDiskBlob.ofSize, OnDiskBlob._fillDataWithZeroes, Data.FillWithZeroes, Data.ofSize,
    Data.size]

/-- The write primitive of `disk` on a path that refers to nothing or to a
regular file. -/
theorem disk_StoreToFile_ok (junk : Nat → Byte) (q : Path → Except Exn Data) (d : Disk)
    (p : Path) (data : Data)
    (h : d p = none ∨ ∃ old, d p = some (.regular_file old)) :
    (disk junk q).StoreToFile data p d
      = (.ok (), Function.update d p (some (.regular_file data.bytes))) := by
  rcases h with h | ⟨old, h⟩ <;> simp [disk, h]

/-- On `disk`, `CreateOnDisk` at a path that refers to nothing. -/
theorem disk_CreateOnDisk_new (junk : Nat → Byte) (q : Path → Except Exn Data) (d : Disk)
    (p : Path) (n : Nat) (h : d p = none) :
    OnDiskBlob.CreateOnDisk (disk junk q) p n d
      = (.returned (some ⟨p, ⟨List.replicate n 0⟩⟩),
          Function.update d p (some (.regular_file (List.replicate n 0)))) := by
  have hex : (disk junk q).bf_exists p d = false := by simp [disk, h]
  simp [OnDiskBlob.CreateOnDisk, hex, zero_filled_blob, OnDiskBlob._storeToDisk,
    disk_StoreToFile_ok junk q d p _ (Or.inl h)]

/-- On `disk`, `LoadFromDisk` at a regular file. -/
theorem disk_LoadFromDisk_file (junk : Nat → Byte) (q : Path → Except Exn Data) (d : Disk)
    (p : Path) (content : List Byte) (h : d p = some (.regular_file content)) :
    OnDiskBlob.LoadFromDisk (disk junk q) p d = (.ok (some ⟨p, ⟨content⟩⟩), d) := by
  simp [OnDiskBlob.LoadFromDisk, disk, h, OnDiskBlob.ofData]

/-- On `disk`, a blob handed out by `LoadFromDisk` or `CreateOnDisk` is bound to
the path asked for, and that path is a regular file afterwards. -/
theorem disk_obtained (junk : Nat → Byte) (q : Path → Except Exn Data) (d d1 : Disk)
    (p : Path) (n : Nat) (b : OnDiskBlob)
    (h : OnDiskBlob.LoadFromDisk (disk junk q) p d = (.ok (some b), d1) ∨
      OnDiskBlob.CreateOnDisk (disk junk q) p n d = (.returned (some b), d1)) :
    b._filepath = p ∧ ∃ old, d1 p = some (.regular_file old) := by
  rcases h with h | h
  · rcases hd : d p with _ | node
    · simp [OnDiskBlob.LoadFromDisk, disk, hd] at h
    · cases node with
      | regular_file content =>
        rw [disk_LoadFromDisk_file junk q d p content hd] at h
        simp only [Prod.mk.injEq, Except.ok.injEq, Option.some.injEq] at h
        obtain ⟨hb, hd1⟩ := h
        subst hb hd1
        exact ⟨rfl, content, hd⟩
      | directory => simp [OnDiskBlob.LoadFromDisk, disk, hd] at h
      | other => simp [OnDiskBlob.LoadFromDisk, disk, hd] at h
  · rcases hd : d p with _ | node
    · rw [disk_CreateOnDisk_new junk q d p n hd] at h
      simp only [Prod.mk.injEq, Outcome.returned.injEq, Option.some.injEq] at h
      obtain ⟨hb, hd1⟩ := h
      subst hb hd1
      exact ⟨rfl, List.replicate n 0, by simp⟩
    · have hex : (disk junk q).bf_exists p d = true := by simp [disk, hd]
      simp [OnDiskBlob.CreateOnDisk, hex] at h

/-- A run of in-bounds writes with no `flush()` ends without an exception, on
the same world, with a blob of the same path and size. -/
theorem runOps_writes (io : Primitives σ) (ops : List Op) (b : OnDiskBlob) (w : σ)
    (h : ∀ op ∈ ops, op ≠ .flush ∧ op.inBounds b.size = true) :
    ∃ b1, runOps io ops b w = some (none, b1, w) ∧ b1._filepath = b._filepath ∧
      b1.size = b.size := by
  induction ops generalizing b with
  | nil => exact ⟨b, rfl, rfl, rfl⟩
  | cons op ops ih =>
    cases op with
    | flush => exact absurd rfl (h .flush (List.mem_cons_self _ _)).1
    | write i v =>
      have hi : i < b.size := by
        simpa [Op.inBounds] using (h (.write i v) (List.mem_cons_self _ _)).2
      have hs : (b.writeByte i v).size = b.size := by
        simp [OnDiskBlob.writeByte, OnDiskBlob.size, Data.size]
      obtain ⟨b1, hrun, hp, hsz⟩ := ih (b.writeByte i v) (by
        intro op hop
        rw [hs]
        exact h op (List.mem_cons_of_mem _ hop))
      exact ⟨b1, by simp [runOps, hi, hrun], hp, by rw [hsz, hs]⟩

/-! ## Exclusive create, absence on load -/

/-- C3. Exclusive create: when `exists(filepath)` holds, whatever kind of
object the path refers to, `CreateOnDisk` returns `nullptr` for every size and
the world after the call is the world before it.  No blob is built and the
write primitive is not called: the answer is the same with any write primitive
put in its place. -/
theorem CreateOnDisk_existing_path (io : Primitives σ) (p : Path) (n : Nat) (w : σ)
    (h : io.bf_exists p w = true) :
    OnDiskBlob.CreateOnDisk io p n w = (.returned none, w) ∧
    ∀ st, OnDiskBlob.CreateOnDisk (io.withStoreToFile st) p n w = (.returned none, w) := by
  constructor
  · simp [OnDiskBlob.CreateOnDisk, h]
  · intro st
    simp [OnDiskBlob.CreateOnDisk, Primitives.withStoreToFile, h]

/-- C3 at a directory, at a regular file and at another kind of object on the
disk: nothing is returned and the disk is the same. -/
theorem CreateOnDisk_existing_path_witness :
    OnDiskBlob.CreateOnDisk (disk (fun _ => 7) (fun _ => .ok ⟨[]⟩)) "dir" 4
        (Function.update emptyDisk "dir" (some .directory))
      = (.returned none, Function.update emptyDisk "dir" (some .directory)) ∧
    OnDiskBlob.CreateOnDisk (disk (fun _ => 7) (fun _ => .ok ⟨[]⟩)) "f" 0
        (Function.update emptyDisk "f" (some (.regular_file [1, 2])))
      = (.returned none, Function.update emptyDisk "f" (some (.regular_file [1, 2]))) ∧
    OnDiskBlob.CreateOnDisk (disk (fun _ => 7) (fun _ => .ok ⟨[]⟩)) "sock" 9
        (Function.update emptyDisk "sock" (some .other))
      = (.returned none, Function.update emptyDisk "sock" (some .other)) :=
  ⟨(CreateOnDisk_existing_path _ "dir" 4 _ (by simp [disk])).1,
   (CreateOnDisk_existing_path _ "f" 0 _ (by simp [disk])).1,
   (CreateOnDisk_existing_path _ "sock" 9 _ (by simp [disk])).1⟩

/-- C5. Absence on load: when `is_regular_file(filepath)` does not hold,
`LoadFromDisk` returns `nullptr` without an exception and leaves the world as
it was.  The read primitive is not called: the answer is the same with any
read primitive put in its place. -/
theorem LoadFromDisk_not_regular_file (io : Primitives σ) (p : Path) (w : σ)
    (h : io.bf_is_regular_file p w = false) :
    OnDiskBlob.LoadFromDisk io p w = (.ok none, w) ∧
    ∀ rd, OnDiskBlob.LoadFromDisk (io.withLoadFromFile rd) p w = (.ok none, w) := by
  constructor
  · simp [OnDiskBlob.LoadFromDisk, h]
  · intro rd
    simp [OnDiskBlob.LoadFromDisk, Primitives.withLoadFromFile, h]

/-- C5 on the disk, at a path that refers to nothing and at a directory. -/
theorem LoadFromDisk_not_regular_file_witness :
    OnDiskBlob.LoadFromDisk (disk (fun _ => 7) (fun _ => .error (.other 1))) "missing/blob"
        emptyDisk = (.ok none, emptyDisk) ∧
    OnDiskBlob.LoadFromDisk (disk (fun _ => 7) (fun _ => .error (.other 1))) "dir"
        (Function.update emptyDisk "dir" (some .directory))
      = (.ok none, Function.update emptyDisk "dir" (some .directory)) :=
  ⟨(LoadFromDisk_not_regular_file _ "missing/blob" emptyDisk (by simp [disk, emptyDisk])).1,
   (LoadFromDisk_not_regular_file _ "dir" (Function.update emptyDisk "dir" (some .directory))
      (by simp [disk])).1⟩

/-- C9. A path passes the regular-file check and the read primitive then
fails.  If it reports "file does not exist", `LoadFromDisk` returns `nullptr`:
no exception, no blob.  If it fails with anything else, that exception leaves
`LoadFromDisk`.  Either way `LoadFromDisk` adds no effect of its own: the world
after it is the world the read primitive left (`w1`, `w2`). -/
theorem LoadFromDisk_read_failure (io : Primitives σ) (p q : Path) (c : Nat) (w w1 w2 : σ)
    (hreg : io.bf_is_regular_file p w = true) :
    (io.LoadFromFile p w = (.error (.FileDoesntExistException q), w1) →
      OnDiskBlob.LoadFromDisk io p w = (.ok none, w1)) ∧
    (io.LoadFromFile p w = (.error (.other c), w2) →
      OnDiskBlob.LoadFromDisk io p w = (.error (.other c), w2)) := by
  constructor
  · intro hread
    simp [OnDiskBlob.LoadFromDisk, hreg, hread]
  · intro hread
    simp [OnDiskBlob.LoadFromDisk, hreg, hread]

/-- C9 with a read primitive that reports "file does not exist" for a path
that passed the check, and with one that fails otherwise; the world (here a
counter) stays at `0`. -/
theorem LoadFromDisk_read_failure_witness :
    OnDiskBlob.LoadFromDisk
        (faulty (.error (.FileDoesntExistException "blob")) (fun _ => .ok ())) "blob" 0
      = (.ok none, 0) ∧
    OnDiskBlob.LoadFromDisk (faulty (.error (.other 3)) (fun _ => .ok ())) "blob" 0
      = (.error (.other 3), 0) :=
  ⟨(LoadFromDisk_read_failure
      (faulty (.error (.FileDoesntExistException "blob")) (fun _ => .ok ()))
      "blob" "blob" 3 0 0 0 rfl).1 rfl,
   (LoadFromDisk_read_failure (faulty (.error (.other 3)) (fun _ => .ok ()))
      "blob" "blob" 3 0 0 0 rfl).2 rfl⟩

/-! ## Failures of the write primitive -/

/-- C10 as stated does not hold for the destructor and for `CreateOnDisk`.
The write primitive fails on each call.  The destructor of a blob calls it
once and the process ends in `std::terminate`: the error of the write does not
leave the destructor.  In `CreateOnDisk` the failed initial write is followed
by the write-back of the destructor of the blob just built: the write
primitive has run twice and the call ends in `std::terminate`, not in the
error of the write.  With a write primitive that fails on its first call only,
the error leaves `CreateOnDisk`, and again the write primitive has run
twice. -/
theorem write_failure_counterexample :
    (faulty (.ok ⟨[]⟩) (fun _ => .error (.other 5))).StoreToFile ⟨[1, 2]⟩ "blob" 0
      = (.error (.other 5), 1) ∧
    OnDiskBlob.destructor (faulty (.ok ⟨[]⟩) (fun _ => .error (.other 5))) ⟨"blob", ⟨[1, 2]⟩⟩ 0
      = (.terminated, 1) ∧
    (faulty (.ok ⟨[]⟩) (fun _ => .error (.other 5))).bf_exists "blob" 0 = false ∧
    (faulty (.ok ⟨[]⟩) (fun _ => .error (.other 5))).StoreToFile ⟨[0, 0]⟩ "blob" 0
      = (.error (.other 5), 1) ∧
    OnDiskBlob.CreateOnDisk (faulty (.ok ⟨[]⟩) (fun _ => .error (.other 5))) "blob" 2 0
      = (.terminated, 2) ∧
    OnDiskBlob.CreateOnDisk
        (faulty (.ok ⟨[]⟩) (fun k => if k = 0 then .error (.other 5) else .ok ())) "blob" 2 0
      = (.thrown (.other 5), 2) := by
  decide

/-- C10, amended.  No failure of the write primitive is swallowed and no
operation reports success after one.
* `flush()` is one call of the write primitive: when the write fails with `e`,
  `e` leaves `flush()`, the buffer is as it was and the world is the one that
  single call left; when the write succeeds, so does `flush()`.  So `flush()`
  fails exactly when the write fails, with the same error.
* The destructor is one call of the write primitive: when the write fails the
  process is terminated, on the world that single call left; it completes
  exactly when the write succeeds.
* When the initial write of `CreateOnDisk` on a path that does not exist
  fails with `e`, the call returns neither a blob nor `nullptr`: `e` leaves it
  or the process is terminated. -/
theorem write_failure_not_swallowed (io : Primitives σ) (b : OnDiskBlob) (p : Path) (n : Nat)
    (w w1 w2 : σ) (e e0 : Exn)
    (hwb : io.StoreToFile b._data b._filepath w = (.error e0, w2))
    (hnew : io.bf_exists p w = false)
    (hfail : io.StoreToFile ⟨List.replicate n 0⟩ p w = (.error e, w1)) :
    b.flush io w = (.error e0, b, w2) ∧
    b.destructor io w = (.terminated, w2) ∧
    ((OnDiskBlob.CreateOnDisk io p n w).1 = .thrown e ∨
      (OnDiskBlob.CreateOnDisk io p n w).1 = .terminated) ∧
    (∀ (b0 : OnDiskBlob) (w0 : σ),
      (∀ e1, (b0.flush io w0).1 = .error e1 ↔
        (io.StoreToFile b0._data b0._filepath w0).1 = .error e1) ∧
      ((b0.flush io w0).1 = .ok () ↔ (io.StoreToFile b0._data b0._filepath w0).1 = .ok ()) ∧
      (b0.flush io w0).2 = (b0, (io.StoreToFile b0._data b0._filepath w0).2) ∧
      ((b0.destructor io w0).1 = .terminated ↔
        ∃ e1, (io.StoreToFile b0._data b0._filepath w0).1 = .error e1) ∧
      ((b0.destructor io w0).1 = .returned () ↔
        (io.StoreToFile b0._data b0._filepath w0).1 = .ok ()) ∧
      (b0.destructor io w0).2 = (io.StoreToFile b0._data b0._filepath w0).2) := by
  refine ⟨?_, ?_, ?_, ?_⟩
  · simp [OnDiskBlob.flush, OnDiskBlob._storeToDisk, hwb]
  · simp [OnDiskBlob.destructor, OnDiskBlob._storeToDisk, hwb]
  · simp only [OnDiskBlob.CreateOnDisk, hnew, zero_filled_blob, OnDiskBlob._storeToDisk, hfail,
      OnDiskBlob.destructor, Bool.false_eq_true, if_false]
    rcases hd : io.StoreToFile ⟨List.replicate n 0⟩ p w1 with ⟨r, w3⟩
    cases r <;> simp
  · intro b0 w0
    refine ⟨fun _ => Iff.rfl, Iff.rfl, rfl, ?_, ?_, ?_⟩ <;>
      (simp only [OnDiskBlob.destructor, OnDiskBlob._storeToDisk]
       rcases hd : io.StoreToFile b0._data b0._filepath w0 with ⟨r, w3⟩
       cases r <;> simp)

/-- The amended C10 with a write primitive that always fails: the error
leaves `flush()` after one call of the primitive, the destructor terminates
the process after one call, and `CreateOnDisk` does not return. -/
theorem write_failure_not_swallowed_witness :
    OnDiskBlob.flush (faulty (.ok ⟨[]⟩) (fun _ => .error (.other 5))) ⟨"blob", ⟨[1, 2]⟩⟩ 0
      = (.error (.other 5), ⟨"blob", ⟨[1, 2]⟩⟩, 1) ∧
    OnDiskBlob.destructor (faulty (.ok ⟨[]⟩) (fun _ => .error (.other 5))) ⟨"blob", ⟨[1, 2]⟩⟩ 0
      = (.terminated, 1) ∧
    ((OnDiskBlob.CreateOnDisk (faulty (.ok ⟨[]⟩) (fun _ => .error (.other 5))) "blob" 2 0).1
        = .thrown (.other 5) ∨
      (OnDiskBlob.CreateOnDisk (faulty (.ok ⟨[]⟩) (fun _ => .error (.other 5))) "blob" 2 0).1
        = .terminated) :=
  have h := write_failure_not_swallowed (faulty (.ok ⟨[]⟩) (fun _ => .error (.other 5)))
    ⟨"blob", ⟨[1, 2]⟩⟩ "blob" 2 0 1 1 (.other 5) (.other 5) rfl rfl rfl
  ⟨h.1, h.2.1, h.2.2.1⟩

/-! ## Size -/

/-- C8. Size invariance.  A blob returned by `CreateOnDisk(p, n)` has `size()`
equal to `n`; a blob returned by `LoadFromDisk(p)` has the size of the data the
read primitive delivered; both are bound to `p`.  A run of `flush()` calls and
in-bounds writes through `data()`, in any order and of any length, has a
result, and the blob at its end has the size and the path it started with.
The remaining member that touches the buffer, `_fillDataWithZeroes()`, keeps
size and path as well. -/
theorem size_is_fixed (io : Primitives σ) (p : Path) (n : Nat) (w : σ) (ops : List Op)
    (b : OnDiskBlob) (hops : ∀ op ∈ ops, op.inBounds b.size = true) :
    (∀ b0 w1, OnDiskBlob.CreateOnDisk io p n w = (.returned (some b0), w1) →
      b0.size = n ∧ b0._filepath = p) ∧
    (∀ b0 w1, OnDiskBlob.LoadFromDisk io p w = (.ok (some b0), w1) →
      b0._filepath = p ∧
        ∃ data, io.LoadFromFile p w = (.ok data, w1) ∧ b0.size = data.size) ∧
    (∃ r, runOps io ops b w = some r ∧ r.2.1.size = b.size ∧
      r.2.1._filepath = b._filepath) ∧
    (b._fillDataWithZeroes.size = b.size ∧
      b._fillDataWithZeroes._filepath = b._filepath) := by
  refine ⟨?_, ?_, ?_, ?_⟩
  rotate_right
  · simp [OnDiskBlob._fillDataWithZeroes, OnDiskBlob.size, Data.FillWithZeroes, Data.size]
  · intro b0 w1 h
    by_cases hex : io.bf_exists p w = true
    · simp [OnDiskBlob.CreateOnDisk, hex] at h
    · simp only [OnDiskBlob.CreateOnDisk, hex, zero_filled_blob, OnDiskBlob._storeToDisk,
        OnDiskBlob.destructor] at h
      rcases hst : io.StoreToFile ⟨List.replicate n 0⟩ p w with ⟨r, w2⟩
      rw [hst] at h
      cases r with
      | ok u =>
        simp only [Bool.false_eq_true, if_false, Prod.mk.injEq, Outcome.returned.injEq,
          Option.some.injEq] at h
        obtain ⟨hb, -⟩ := h
        subst hb
        simp [OnDiskBlob.size, Data.size]
      | error e =>
        simp only [Bool.false_eq_true, if_false] at h
        rcases hst2 : io.StoreToFile ⟨List.replicate n 0⟩ p w2 with ⟨r2, w3⟩
        rw [hst2] at h
        cases r2 <;> simp at h
  · intro b0 w1 h
    by_cases hreg : io.bf_is_regular_file p w = true
    · simp only [OnDiskBlob.LoadFromDisk, hreg, Bool.not_true, Bool.false_eq_true,
        if_false] at h
      rcases hrd : io.LoadFromFile p w with ⟨r, w2⟩
      rw [hrd] at h
      cases r with
      | ok data =>
        simp only [Prod.mk.injEq, Except.ok.injEq, Option.some.injEq] at h
        obtain ⟨hb, hw⟩ := h
        subst hb hw
        exact ⟨rfl, data, rfl, rfl⟩
      | error e => cases e <;> simp at h
    · simp [OnDiskBlob.LoadFromDisk, hreg] at h
  · clear p n
    induction ops generalizing b w with
    | nil => exact ⟨(none, b, w), rfl, rfl, rfl⟩
    | cons op ops ih =>
      have hrest : ∀ op1 ∈ ops, op1.inBounds b.size = true :=
        fun op1 h1 => hops op1 (List.mem_cons_of_mem _ h1)
      cases op with
      | flush =>
        rcases hst : io.StoreToFile b._data b._filepath w with ⟨r, w2⟩
        cases r with
        | ok u =>
          obtain ⟨r1, hrun, hsz, hp⟩ := ih w2 b hrest
          exact ⟨r1, by simp [runOps, OnDiskBlob.flush, OnDiskBlob._storeToDisk, hst, hrun],
            hsz, hp⟩
        | error e =>
          exact ⟨(some e, b, w2),
            by simp [runOps, OnDiskBlob.flush, OnDiskBlob._storeToDisk, hst], rfl, rfl⟩
      | write i v =>
        have hi : i < b.size := by
          simpa [Op.inBounds] using hops (.write i v) (List.mem_cons_self _ _)
        have hs : (b.writeByte i v).size = b.size := by
          simp [OnDiskBlob.writeByte, OnDiskBlob.size, Data.size]
        obtain ⟨r1, hrun, hsz, hp⟩ := ih w (b.writeByte i v) (by rw [hs]; exact hrest)
        exact ⟨r1, by simp [runOps, hi, hrun], by rw [hsz, hs], by rw [hp]; rfl⟩

/-- C8 on the disk: a blob of three bytes is written at offsets 0 and 2 and
flushed twice in between. -/
theorem size_is_fixed_witness :
    ∃ r, runOps (disk (fun _ => 7) (fun _ => .ok ⟨[]⟩))
        [.write 0 9, .flush, .write 2 8, .flush] ⟨"blob", ⟨[1, 2, 3]⟩⟩ emptyDisk = some r ∧
      r.2.1.size = OnDiskBlob.size ⟨"blob", ⟨[1, 2, 3]⟩⟩ ∧
      r.2.1._filepath = OnDiskBlob._filepath ⟨"blob", ⟨[1, 2, 3]⟩⟩ :=
  (size_is_fixed (disk (fun _ => 7) (fun _ => .ok ⟨[]⟩)) "blob" 3 emptyDisk
    [.write 0 9, .flush, .write 2 8, .flush] ⟨"blob", ⟨[1, 2, 3]⟩⟩ (by decide)).2.2.1

/-! ## Blobs and files on the disk -/

/-- C4. Zero fill: on the disk, for a path that refers to nothing and any size
`n`, zero included, `CreateOnDisk` returns a blob bound to the path, of size
`n`, whose buffer is `n` zero bytes, whatever the allocator had left in it; after
the call the path is a regular file of exactly `n` zero bytes and no other
path has changed. -/
theorem CreateOnDisk_zero_fill (junk : Nat → Byte) (q : Path → Except Exn Data) (d : Disk)
    (p : Path) (n : Nat) (h : d p = none) :
    ∃ b d1, OnDiskBlob.CreateOnDisk (disk junk q) p n d = (.returned (some b), d1) ∧
      b._filepath = p ∧ b.size = n ∧ b.data = List.replicate n 0 ∧
      d1 p = some (.regular_file (List.replicate n 0)) ∧
      ∀ r, r ≠ p → d1 r = d r := by
  refine ⟨_, _, disk_CreateOnDisk_new junk q d p n h, rfl, ?_, rfl, ?_, ?_⟩
  · simp [OnDiskBlob.size, Data.size]
  · simp
  · intro r hr
    simp [Function.update_noteq hr]

/-- C4 for four bytes and for no byte, with an allocator that hands out
non-zero memory. -/
theorem CreateOnDisk_zero_fill_witness :
    (∃ b d1, OnDiskBlob.CreateOnDisk (disk (fun _ => 255) (fun _ => .ok ⟨[]⟩)) "blob" 4
        emptyDisk = (.returned (some b), d1) ∧
      b._filepath = "blob" ∧ b.size = 4 ∧ b.data = List.replicate 4 0 ∧
      d1 "blob" = some (.regular_file (List.replicate 4 0)) ∧
      ∀ r, r ≠ "blob" → d1 r = emptyDisk r) ∧
    (∃ b d1, OnDiskBlob.CreateOnDisk (disk (fun _ => 255) (fun _ => .ok ⟨[]⟩)) "empty" 0
        emptyDisk = (.returned (some b), d1) ∧
      b._filepath = "empty" ∧ b.size = 0 ∧ b.data = List.replicate 0 0 ∧
      d1 "empty" = some (.regular_file (List.replicate 0 0)) ∧
      ∀ r, r ≠ "empty" → d1 r = emptyDisk r) :=
  ⟨CreateOnDisk_zero_fill _ _ emptyDisk "blob" 4 rfl,
   CreateOnDisk_zero_fill _ _ emptyDisk "empty" 0 rfl⟩

/-- C6. Clean state, on the disk.
* `LoadFromDisk` at a regular file returns a blob bound to the path whose
  buffer is the whole content of the file and whose size is the length of the
  file; the disk is unchanged.
* After a `CreateOnDisk` that returned a blob, the file at the path holds the
  bytes of the buffer, `size()` many.
* `flush()` of a blob bound to a regular file, whatever the file held and
  however long it was, succeeds, leaves the buffer alone and makes the content
  of the file the bytes of the buffer, `size()` many; no other path changes. -/
theorem clean_state (junk : Nat → Byte) (q : Path → Except Exn Data) (d d0 : Disk)
    (p : Path) (old : List Byte) (n : Nat) (buf : Data)
    (hfile : d p = some (.regular_file old)) (hnew : d0 p = none) :
    (∃ b, OnDiskBlob.LoadFromDisk (disk junk q) p d = (.ok (some b), d) ∧
      b._filepath = p ∧ b.data = old ∧ b.size = old.length) ∧
    (∃ b d1, OnDiskBlob.CreateOnDisk (disk junk q) p n d0 = (.returned (some b), d1) ∧
      d1 p = some (.regular_file b.data) ∧ b.data.length = b.size) ∧
    (∃ d1, OnDiskBlob.flush (disk junk q) ⟨p, buf⟩ d = (.ok (), ⟨p, buf⟩, d1) ∧
      d1 p = some (.regular_file (OnDiskBlob.data ⟨p, buf⟩)) ∧
      (OnDiskBlob.data ⟨p, buf⟩).length = OnDiskBlob.size ⟨p, buf⟩ ∧
      ∀ r, r ≠ p → d1 r = d r) := by
  refine ⟨⟨_, disk_LoadFromDisk_file junk q d p old hfile, rfl, rfl, rfl⟩,
    ⟨_, _, disk_CreateOnDisk_new junk q d0 p n hnew, ?_, rfl⟩,
    ⟨Function.update d p (some (.regular_file buf.bytes)), ?_, ?_, rfl, ?_⟩⟩
  · simp [OnDiskBlob.data, Data.data]
  · simp [OnDiskBlob.flush, OnDiskBlob._storeToDisk,
      disk_StoreToFile_ok junk q d p buf (Or.inr ⟨old, hfile⟩)]
  · simp [OnDiskBlob.data, Data.data]
  · intro r hr
    simp [Function.update_noteq hr]

/-- C6 on a disk with a five-byte file: loading it, and flushing a two-byte
buffer over it. -/
theorem clean_state_witness :
    (∃ b, OnDiskBlob.LoadFromDisk (disk (fun _ => 7) (fun _ => .ok ⟨[]⟩)) "blob"
        (Function.update emptyDisk "blob" (some (.regular_file [1, 2, 3, 4, 5])))
        = (.ok (some b), Function.update emptyDisk "blob" (some (.regular_file [1, 2, 3, 4, 5]))) ∧
      b._filepath = "blob" ∧ b.data = [1, 2, 3, 4, 5] ∧ b.size = [1, 2, 3, 4, 5].length) ∧
    (∃ d1, OnDiskBlob.flush (disk (fun _ => 7) (fun _ => .ok ⟨[]⟩)) ⟨"blob", ⟨[8, 9]⟩⟩
        (Function.update emptyDisk "blob" (some (.regular_file [1, 2, 3, 4, 5])))
        = (.ok (), ⟨"blob", ⟨[8, 9]⟩⟩, d1) ∧
      d1 "blob" = some (.regular_file (OnDiskBlob.data ⟨"blob", ⟨[8, 9]⟩⟩)) ∧
      (OnDiskBlob.data ⟨"blob", ⟨[8, 9]⟩⟩).length = OnDiskBlob.size ⟨"blob", ⟨[8, 9]⟩⟩ ∧
      ∀ r, r ≠ "blob" →
        d1 r = Function.update emptyDisk "blob" (some (.regular_file [1, 2, 3, 4, 5])) r) :=
  have h := clean_state (fun _ => 7) (fun _ => .ok ⟨[]⟩)
    (Function.update emptyDisk "blob" (some (.regular_file [1, 2, 3, 4, 5]))) emptyDisk
    "blob" [1, 2, 3, 4, 5] 3 ⟨[8, 9]⟩ (by simp) rfl
  ⟨h.1, h.2.2⟩

/-- C7. Idempotent flush, on the disk: for every blob and every state of the
disk, `flush()` twice in a row gives the result, the blob and the disk that one
`flush()` gives, and that blob is the one flushed. -/
theorem flush_idempotent (junk : Nat → Byte) (q : Path → Except Exn Data) (b : OnDiskBlob)
    (d : Disk) :
    flushTwice (disk junk q) b d = b.flush (disk junk q) d ∧
    (b.flush (disk junk q) d).2.1 = b ∧ (flushTwice (disk junk q) b d).2.1 = b := by
  have key : flushTwice (disk junk q) b d = b.flush (disk junk q) d := by
    rcases hd : d b._filepath with _ | node
    · simp [flushTwice, OnDiskBlob.flush, OnDiskBlob._storeToDisk, disk, hd]
    · cases node <;>
        simp [flushTwice, OnDiskBlob.flush, OnDiskBlob._storeToDisk, disk, hd]
  exact ⟨key, rfl, by rw [key]; rfl⟩

/-- C2. Durability on discard, on the disk.  A blob `b` comes from
`LoadFromDisk` or from `CreateOnDisk`; its owner makes any run of in-bounds
writes through `data()`, the empty run included, and never calls `flush()`.
The run leaves the disk as it was.  The destructor of the blob so reached
then succeeds, and afterwards the file at the path of the blob holds exactly
the bytes of the final buffer; no other path changes.  The write-back does not
depend on a mutation having happened: with any primitives, the destructor of
any blob is one call of the write primitive on the current buffer, it leaves
the world that call left, and it completes when the call succeeds and
terminates the process when the call fails. -/
theorem destructor_writes_back (junk : Nat → Byte) (q : Path → Except Exn Data)
    (d d1 : Disk) (p : Path) (n : Nat) (b : OnDiskBlob) (ops : List Op)
    (hobt : OnDiskBlob.LoadFromDisk (disk junk q) p d = (.ok (some b), d1) ∨
      OnDiskBlob.CreateOnDisk (disk junk q) p n d = (.returned (some b), d1))
    (hops : ∀ op ∈ ops, op ≠ .flush ∧ op.inBounds b.size = true) :
    ∃ b1 d2, runOps (disk junk q) ops b d1 = some (none, b1, d1) ∧
      b1.destructor (disk junk q) d1 = (.returned (), d2) ∧
      d2 b._filepath = some (.regular_file b1.data) ∧
      (∀ r, r ≠ b._filepath → d2 r = d1 r) ∧
      ∀ (τ : Type) (io : Primitives τ) (b0 : OnDiskBlob) (w : τ),
        b0.destructor io w =
          (match (io.StoreToFile b0._data b0._filepath w).1 with
            | .ok _ => .returned ()
            | .error _ => .terminated,
           (io.StoreToFile b0._data b0._filepath w).2) := by
  obtain ⟨hp, old, hold⟩ := disk_obtained junk q d d1 p n b hobt
  obtain ⟨b1, hrun, hp1, -⟩ := runOps_writes (disk junk q) ops b d1 hops
  refine ⟨b1, Function.update d1 p (some (.regular_file b1._data.bytes)), hrun, ?_, ?_, ?_,
    ?_⟩
  rotate_right
  · intro τ io b0 w
    simp only [OnDiskBlob.destructor, OnDiskBlob._storeToDisk]
    rcases hst : io.StoreToFile b0._data b0._filepath w with ⟨r, w3⟩
    cases r <;> rfl
  · simp only [OnDiskBlob.destructor, OnDiskBlob._storeToDisk, hp1, hp]
    rw [disk_StoreToFile_ok junk q d1 p b1._data (Or.inr ⟨old, hold⟩)]
  · rw [hp]
    simp [OnDiskBlob.data, Data.data]
  · intro r hr
    rw [hp] at hr
    simp [Function.update_noteq hr]

/-- C2 for a blob loaded from a three-byte file and written at offsets 0 and
2: the file ends as the final buffer. -/
theorem destructor_writes_back_witness :
    ∃ b1 d2, runOps (disk (fun _ => 7) (fun _ => .ok ⟨[]⟩)) [.write 0 9, .write 2 8]
        ⟨"blob", ⟨[1, 2, 3]⟩⟩
        (Function.update emptyDisk "blob" (some (.regular_file [1, 2, 3])))
        = some (none, b1, Function.update emptyDisk "blob" (some (.regular_file [1, 2, 3]))) ∧
      b1.destructor (disk (fun _ => 7) (fun _ => .ok ⟨[]⟩))
        (Function.update emptyDisk "blob" (some (.regular_file [1, 2, 3])))
        = (.returned (), d2) ∧
      d2 "blob" = some (.regular_file b1.data) :=
  have h := destructor_writes_back (fun _ => 7) (fun _ => .ok ⟨[]⟩)
      (Function.update emptyDisk "blob" (some (.regular_file [1, 2, 3])))
      (Function.update emptyDisk "blob" (some (.regular_file [1, 2, 3]))) "blob" 0
      ⟨"blob", ⟨[1, 2, 3]⟩⟩ [.write 0 9, .write 2 8]
      (Or.inl (by simp [OnDiskBlob.LoadFromDisk, disk, OnDiskBlob.ofData])) (by decide)
  h.elim fun b1 h1 => h1.elim fun d2 h2 => ⟨b1, d2, h2.1, h2.2.1, h2.2.2.1⟩

/-- C1. Round trip, on the disk.  For a path that refers to nothing and any
bytes `B`, none included: `CreateOnDisk(p, len B)` returns a blob; copying `B`
over its buffer through `data()` makes the buffer `B`; `flush()` succeeds; and
`LoadFromDisk(p)` then returns a blob, not `nullptr`, of size `len B` whose
buffer is `B`. -/
theorem round_trip (junk : Nat → Byte) (q : Path → Except Exn Data) (d : Disk) (p : Path)
    (B : List Byte) (h : d p = none) :
    ∃ b0 d1 d2 b2,
      OnDiskBlob.CreateOnDisk (disk junk q) p B.length d = (.returned (some b0), d1) ∧
      (b0.writeBytes B).data = B ∧
      (b0.writeBytes B).flush (disk junk q) d1 = (.ok (), b0.writeBytes B, d2) ∧
      OnDiskBlob.LoadFromDisk (disk junk q) p d2 = (.ok (some b2), d2) ∧
      b2.size = B.length ∧ b2.data = B := by
  have hwb : OnDiskBlob.writeBytes ⟨p, ⟨List.replicate B.length 0⟩⟩ B = ⟨p, ⟨B⟩⟩ := by
    simp [OnDiskBlob.writeBytes]
  have hd1 : Function.update d p (some (.regular_file (List.replicate B.length 0))) p
      = some (.regular_file (List.replicate B.length 0)) := by simp
  refine ⟨_, _, Function.update
      (Function.update d p (some (.regular_file (List.replicate B.length 0)))) p
      (some (.regular_file B)), ⟨p, ⟨B⟩⟩,
    disk_CreateOnDisk_new junk q d p B.length h, ?_, ?_, ?_, rfl, rfl⟩
  · rw [hwb]; rfl
  · rw [hwb]
    simp only [OnDiskBlob.flush, OnDiskBlob._storeToDisk]
    rw [disk_StoreToFile_ok junk q _ p ⟨B⟩ (Or.inr ⟨_, hd1⟩)]
  · exact disk_LoadFromDisk_file junk q _ p B (by simp)

/-- C1 for three bytes and for no byte. -/
theorem round_trip_witness :
    (∃ b0 d1 d2 b2,
      OnDiskBlob.CreateOnDisk (disk (fun _ => 7) (fun _ => .ok ⟨[]⟩)) "blob"
        [10, 20, 30].length emptyDisk = (.returned (some b0), d1) ∧
      (b0.writeBytes [10, 20, 30]).data = [10, 20, 30] ∧
      (b0.writeBytes [10, 20, 30]).flush (disk (fun _ => 7) (fun _ => .ok ⟨[]⟩)) d1
        = (.ok (), b0.writeBytes [10, 20, 30], d2) ∧
      OnDiskBlob.LoadFromDisk (disk (fun _ => 7) (fun _ => .ok ⟨[]⟩)) "blob" d2
        = (.ok (some b2), d2) ∧
      b2.size = [10, 20, 30].length ∧ b2.data = [10, 20, 30]) ∧
    (∃ b0 d1 d2 b2,
      OnDiskBlob.CreateOnDisk (disk (fun _ => 7) (fun _ => .ok ⟨[]⟩)) "blob"
        ([] : List Byte).length emptyDisk = (.returned (some b0), d1) ∧
      (b0.writeBytes []).data = [] ∧
      (b0.writeBytes []).flush (disk (fun _ => 7) (fun _ => .ok ⟨[]⟩)) d1
        = (.ok (), b0.writeBytes [], d2) ∧
      OnDiskBlob.LoadFromDisk (disk (fun _ => 7) (fun _ => .ok ⟨[]⟩)) "blob" d2
        = (.ok (some b2), d2) ∧
      b2.size = ([] : List Byte).length ∧ b2.data = []) :=
  ⟨round_trip _ _ emptyDisk "blob" [10, 20, 30] rfl, round_trip _ _ emptyDisk "blob" [] rfl⟩

end ondisk
end blobstore
